import Mathlib

/-!
Verification of the papergist browser client (front-end orchestration
module `src/unnamed/part_001` and the earlier poll module
`src/frontend/app.js`).

The JavaScript is shallowly embedded as pure Lean functions.  Network
calls, file reading, conversion and other suspension points are
modelled by oracle ("environment") parameters of type `JsResult α`: the
awaited expression either produced a value or threw.  DOM mutations
that matter to the specification (button disabled flags, pagination
visibility, the search input field) live in `AppState`; the remaining
observable actions (toasts, HTTP requests, rendering, history pushes)
are recorded in an `Effect` trace returned alongside the state.
-/

namespace Papergist

/-- Result of a JavaScript expression that can throw: either a value or
a thrown error carrying a message. -/
inductive JsResult (α : Type) where
  | ok (a : α)
  | thrown (msg : String)
  deriving DecidableEq

/-- JS truthiness of a string value (`""` is falsy, every other string
is truthy). -/
def jsTruthy (s : String) : Bool := decide (s ≠ "")

/-- JS truthiness of a possibly-undefined string field (`undefined` and
`""` are falsy). -/
def jsTruthyO (s : Option String) : Bool :=
  match s with
  | none => false
  | some v => decide (v ≠ "")

/-- JS truthiness of a possibly-undefined boolean field: only the value
`true` is truthy. -/
def jsTruthyB (b : Option Bool) : Bool := decide (b = some true)

/-- Model of `str.replace(/\s+/g, '')`: every whitespace character is
removed. -/
def jsStripWS (s : String) : String :=
  String.mk (s.data.filter (fun c => !c.isWhitespace))

/-- Model of `str.toLowerCase()` (character-wise lowering). -/
def jsToLower (s : String) : String := String.mk (s.data.map Char.toLower)

/-- Model of `str.slice(0, n)`: the first `n` characters. -/
def jsSlice (s : String) (n : Nat) : String := String.mk (s.data.take n)

/-- Model of `str.startsWith(pre)`. -/
def jsStartsWith (s pre : String) : Bool := pre.data.isPrefixOf s.data

/-- Splitting a character list on a separator, as `String.split` does
for a one-character separator (every separator occurrence produces a
piece, including empty ones at the ends). -/
def splitCharAux (sep : Char) : List Char → List Char → List (List Char)
  | [], acc => [acc.reverse]
  | c :: cs, acc =>
    if c == sep then acc.reverse :: splitCharAux sep cs []
    else splitCharAux sep cs (c :: acc)

/-- Model of `str.split('.')`. -/
def jsSplitDot (s : String) : List String :=
  (splitCharAux '.' s.data []).map String.mk

/-- Model of `str.includes(sub)` for a non-empty pattern: splitting on
the pattern yields more than one piece exactly when it occurs. -/
def jsIncludes (s pat : String) : Bool := (s.splitOn pat).length ≥ 2

/-- Model of `file.name.split('.').pop().toLowerCase()` from
`uploadFile` (src/unnamed/part_001 line 906): the part after the last
dot, lowercased; a name with no dot yields the whole name. -/
def jsExtension (name : String) : String :=
  jsToLower (((jsSplitDot name).getLast?).getD name)

/-- Model of `file.name.replace(/\.[^/.]+$/, "")` (line 907): drop a
trailing `.ext` whose extension part is non-empty and free of `/` and
`.`; otherwise the name is unchanged. -/
def jsStripLastExt (name : String) : String :=
  let parts := jsSplitDot name
  match parts.getLast? with
  | none => name
  | some ext =>
    if parts.length ≥ 2 && ext != "" && !(ext.data.contains '/') then
      String.intercalate "." parts.dropLast
    else name

/-- `sanitizeArxivId` (src/unnamed/part_001 lines 151-153):
`arxivId.replace(/\//g, "-")`. -/
def sanitizeArxivId (arxivId : String) : String :=
  arxivId.map (fun c => if c == '/' then '-' else c)

/-! ## ContentHasher (`generatePdfHash`, src/unnamed/part_001 lines 115-148) -/

/-- One text run of the pdf.js text content (`item.str`). -/
structure TextItem where
  str : String
  deriving DecidableEq

/-- A parsed PDF page: the list of text runs returned by
`page.getTextContent()`. -/
structure PdfPage where
  items : List TextItem
  deriving DecidableEq

/-- A parsed PDF document: its pages, in order. -/
structure PdfDoc where
  pages : List PdfPage
  deriving DecidableEq

/-- The binary payload handed to `generatePdfHash`, as the PDF.js
pipeline sees it: either it parses into a document, or parsing /
`arrayBuffer` fails, or `window.pdfjsLib` is not loaded (both failure
constructors throw inside the guarded block of the source). -/
inductive PdfPayload where
  | valid (doc : PdfDoc)
  | malformed
  | libMissing
  deriving DecidableEq

/-- `generatePdfHash` (lines 115-148).  Text of the first page only:
`textContent.items.map(item => item.str)` joined with `''`, then
`text.slice(0, 48).replace(/\s+/g, '').toLowerCase()`.  Every thrown
error (library missing, malformed payload, `pdf.getPage(1)` on a
page-less document) is caught and surfaced as `null`, modelled `none`. -/
def generatePdfHash (payload : PdfPayload) : Option String :=
  match payload with
  | .libMissing => none
  | .malformed => none
  | .valid doc =>
    match doc.pages with
    | [] => none
    | page :: _ =>
      let textItems := page.items.map (fun item => item.str)
      let text := String.join textItems
      some (jsToLower (jsStripWS (jsSlice text 48)))

/-- Modelled from the spec's words for the ContentHasher reference
definition (claim C5): "the text runs of the first page only are
concatenated, the first 48 characters of that concatenation are taken,
all whitespace is removed from those 48 characters, and the result is
lowercased". -/
def referenceFingerprint (firstPage : PdfPage) : String :=
  let concatenated := String.join (firstPage.items.map (fun item => item.str))
  let first48 := jsSlice concatenated 48
  let stripped := jsStripWS first48
  jsToLower stripped

/-- Concatenated text of a document's first page (used to state the
collision claims); empty for a page-less document. -/
def firstPageText (doc : PdfDoc) : String :=
  match doc.pages with
  | [] => ""
  | page :: _ => String.join (page.items.map (fun item => item.str))

/-! ## Data model -/

/-- A paper/record JSON body as consumed by the client.  Fields that a
given response may lack are `Option`; an absent field is `none`
(JS `undefined`). -/
structure PaperData where
  arxiv_id : Option String := none
  sanitized_arxiv_id : Option String := none
  original_arxiv_id : Option String := none
  title : Option String := none
  authors : List String := []
  summary : Option String := none
  processing : Option Bool := none
  message : Option String := none
  error : Option String := none
  pdf_url : Option String := none
  deriving DecidableEq

/-- Body of a `/search` response. -/
structure SearchData where
  error : Option String := none
  papers : List PaperData := []
  has_next_page : Bool := false
  deriving DecidableEq

/-- Body of an `/enqueue` response (only its `error` field is read). -/
structure EnqueueResp where
  error : Option String := none
  deriving DecidableEq

/-- An entry of the `myUploads` list persisted under the
`papergist-uploads` localStorage key (lines 1144-1151). -/
structure UploadRecord where
  arxiv_id : String
  sanitized_arxiv_id : String
  title : String
  uploadDate : String
  fileUrl : String
  fileName : String
  deriving DecidableEq

/-- The three values of the `currentView` variable. -/
inductive View where
  | search
  | paper
  | uploads
  deriving DecidableEq

/-- Toast severities used by `showToast`. -/
inductive ToastKind where
  | info
  | success
  | error
  deriving DecidableEq

/-- Observable actions of the module that are not stored in
`AppState`: user notices, outbound HTTP requests, rendering, history
manipulation, scheduled continuations and uncaught exceptions. -/
inductive Effect where
  | toast (kind : ToastKind) (msg : String)
  | searchRequest (query : String) (page : Int) (sortBy : String)
  | paperRequest (id : String)
  | hashProbeRequest (hash : String)
  | enqueueRequest
  | putRequest (url : String)
  | renderCards (papers : List PaperData)
  | renderPaper (p : PaperData)
  | renderUploadsList (uploads : List UploadRecord)
  | persistUploads (uploads : List UploadRecord)
  | pushStateUrl (url : String)
  | scheduleShowUploads
  | openFileDialog
  | uncaughtException (msg : String)
  deriving DecidableEq

/-- The module-level mutable state of src/unnamed/part_001 (lines 8-16)
together with the DOM facts the specification talks about: the
disabled flags of the pagination buttons, the visibility of the
pagination bar, the search input's value and the page label. -/
structure AppState where
  currentPage : Int := 0
  currentQuery : String := ""
  currentSortBy : String := "relevance"
  hasNextPage : Bool := false
  currentView : View := View.search
  currentPaperData : Option PaperData := none
  myUploads : List UploadRecord := []
  isApiCallInProgress : Bool := false
  prevPageDisabled : Bool := false
  nextPageDisabled : Bool := false
  paginationVisible : Bool := false
  searchInputValue : String := ""
  pageInfoText : String := ""
  deriving DecidableEq

/-! ## OperationLock plumbing (`setApiCallState` and the UI toggles) -/

/-- Top-level `const prevPageButton = ...` and `let currentPage = ...`
bindings in a classic script do not create properties of `window`, so
`window.prevPageButton`, `window.nextPageButton`, `window.currentPage`
and `window.hasNextPage` inside `enableAllUIInteractions` (lines
871-872) are all `undefined`.  This constant records that fact: the
guarded statements are dead. -/
def windowPrevPageButton : Option Unit := none

/-- Same remark for `window.nextPageButton` (line 872). -/
def windowNextPageButton : Option Unit := none

/-- `disableAllUIInteractions` (lines 846-856): every button, input and
select is disabled; in particular both pagination buttons. -/
def disableAllUIInteractions (s : AppState) : AppState :=
  { s with prevPageDisabled := true, nextPageDisabled := true }

/-- `enableAllUIInteractions` (lines 859-880): every element is enabled
first; the subsequent page-dependent re-disabling is guarded by
`window.prevPageButton` / `window.nextPageButton`, which are undefined
(see `windowPrevPageButton`), so it never executes. -/
def enableAllUIInteractions (s : AppState) : AppState :=
  let s := { s with prevPageDisabled := false, nextPageDisabled := false }
  let s :=
    match windowPrevPageButton with
    | some _ => { s with prevPageDisabled := decide (s.currentPage = 0) }
    | none => s
  match windowNextPageButton with
  | some _ => { s with nextPageDisabled := !s.hasNextPage }
  | none => s

/-- `enableUIInteractions` (lines 828-843).  It re-enables the
pagination buttons "respecting their state" — but this function is
never called anywhere in the module (`setApiCallState` uses the `All`
variants); it documents the intended rule. -/
def enableUIInteractions (s : AppState) : AppState :=
  { s with prevPageDisabled := decide (s.currentPage = 0),
           nextPageDisabled := !s.hasNextPage }

/-- `setApiCallState` (lines 41-50): store the flag, then disable or
enable the UI accordingly. -/
def setApiCallState (inProgress : Bool) (s : AppState) : AppState :=
  let s := { s with isApiCallInProgress := inProgress }
  if inProgress then disableAllUIInteractions s else enableAllUIInteractions s

/-! ## View rendering helpers -/

/-- `hasSummary` (lines 516-521): defined, non-null and non-blank after
trimming. -/
def hasSummary (data : PaperData) : Bool :=
  match data.summary with
  | none => false
  | some summary => decide (summary.trim ≠ "")

/-- `show_pagination` (lines 445-455): the pagination bar is shown only
in search view and only when a query is set (truthy). -/
def show_pagination (s : AppState) : AppState :=
  { s with paginationVisible :=
      decide (s.currentView = View.search ∧ s.currentQuery ≠ "") }

/-- `showPaperView` (lines 775-781): switch `currentView` to paper and
toggle the section visibilities (only the view field is tracked). -/
def showPaperView (s : AppState) : AppState :=
  { s with currentView := View.paper }

/-- `displayPaper` (lines 670-708): render title/authors/summary into
the paper view (recorded as a `renderPaper` effect) and switch to the
paper view. -/
def displayPaper (data : PaperData) (s : AppState) : AppState × List Effect :=
  (showPaperView s, [Effect.renderPaper data])

/-- `displayResults` (lines 345-366): show the pagination bar, render
the cards of the papers that are not manual uploads, store
`has_next_page` and set the pagination button states and page label. -/
def displayResults (data : SearchData) (s : AppState) : AppState × List Effect :=
  let s := show_pagination s
  let shown := data.papers.filter (fun paper =>
    if jsTruthyO paper.arxiv_id then
      !(jsStartsWith (paper.arxiv_id.getD "") "manual-upload-")
    else true)
  let s := { s with hasNextPage := data.has_next_page,
                    prevPageDisabled := decide (s.currentPage = 0),
                    nextPageDisabled := !data.has_next_page,
                    pageInfoText := "Page " ++ toString (s.currentPage + 1) }
  (s, [Effect.renderCards shown])

/-! ## Orchestrated operations -/

/-- `fetchResults` (lines 313-342).  The whole body is a
`try/catch/finally`: the lock is acquired inside the `try`, the
response either throws, carries an `error` field, or is displayed, and
the `finally` releases the lock on every path. -/
def fetchResults (env : JsResult SearchData) (s : AppState) :
    AppState × List Effect :=
  let s := setApiCallState true s
  let req := [Effect.searchRequest s.currentQuery s.currentPage s.currentSortBy]
  let (s, effs) :=
    match env with
    | .thrown _ =>
        (s, req ++ [Effect.toast .error "Failed to fetch results. Please try again."])
    | .ok data =>
        if jsTruthyO data.error then
          (s, req ++ [Effect.toast .error (data.error.getD "")])
        else
          let (s, de) := displayResults data s
          (s, req ++ de)
  (setApiCallState false s, effs)

/-- `showSearchView` (lines 711-738): set the view, force the
pagination bar visible, fire `fetchResults` when not skipped, a query
exists and no call is in progress (the call is not awaited in the
source; it is modelled as running to completion here, which only
affects effect interleaving), and finally re-evaluate
`show_pagination`. -/
def showSearchView (skipFetch : Bool) (env : JsResult SearchData)
    (s : AppState) : AppState × List Effect :=
  let s := { s with currentView := View.search, paginationVisible := true }
  let (s, effs) :=
    if !skipFetch && jsTruthy s.currentQuery && !s.isApiCallInProgress then
      fetchResults env s
    else
      (s, [])
  (show_pagination s, effs)

/-- `displayUploadsList` (lines 392-442).  With an empty `myUploads`
the first branch references the undefined variables `uploadCard` and
`upload` and throws a `ReferenceError`; otherwise the list is
rendered.  The thrown error propagates to the caller uncaught (it is
recorded as an effect). -/
def displayUploadsList (uploads : List UploadRecord) : List Effect :=
  if uploads.isEmpty then
    [Effect.uncaughtException "ReferenceError: uploadCard is not defined"]
  else
    [Effect.renderUploadsList uploads]

/-- `showUploadsView` (lines 741-772): switch the view, clear the
search input and `currentQuery`, hide the pagination bar and render the
uploads list. -/
def showUploadsView (s : AppState) : AppState × List Effect :=
  let s := { s with currentView := View.uploads,
                    searchInputValue := "",
                    currentQuery := "",
                    paginationVisible := false }
  (s, displayUploadsList s.myUploads)

/-- `enqueuePaper` (lines 597-623): POST the descriptor to `/enqueue`;
an `error` field in the body or a thrown transport error yields
`false`, success yields `true`.  The internal `try/catch` means the
function never throws to its caller (its Lean embedding is total). -/
def enqueuePaper (env : JsResult EnqueueResp) : List Effect × Bool :=
  let req := [Effect.enqueueRequest]
  let accepted : Bool :=
    match env with
    | .thrown _ => false
    | .ok data => if jsTruthyO data.error then false else true
  (req, accepted)

/-- Lines 529-530 of `processPaperSummary`, which run after
`setApiCallState(true)` but before the `try`:
`paperData.sanitized_arxiv_id || sanitizeArxivId(paperData.arxiv_id)`.
When `sanitized_arxiv_id` is falsy and `arxiv_id` is undefined,
`arxivId.replace` throws a `TypeError`. -/
def sanitizedIdOf (paperData : PaperData) : JsResult String :=
  if jsTruthyO paperData.sanitized_arxiv_id then
    .ok (paperData.sanitized_arxiv_id.getD "")
  else
    match paperData.arxiv_id with
    | some a => .ok (sanitizeArxivId a)
    | none => .thrown "TypeError: cannot read properties of undefined (reading replace)"

/-- `processPaperSummary` (lines 524-594).  The lock is acquired first;
the id sanitization runs before the `try` (see `sanitizedIdOf`), so a
throw there escapes uncaught and skips the `finally` that releases the
lock.  Inside the `try`: the paper endpoint is queried and the four
cases of the source are taken in order; the `finally` resets the button
and releases the lock.  `fetchEnv` is the paper-endpoint outcome
(`ok none` models a null body), `enqEnv` the enqueue outcome,
`fileProto` the `isFileProtocol()` test. -/
def processPaperSummary (fetchEnv : JsResult (Option PaperData))
    (enqEnv : JsResult EnqueueResp) (fileProto : Bool)
    (paperData : PaperData) (s : AppState) : AppState × List Effect :=
  let s := setApiCallState true s
  match sanitizedIdOf paperData with
  | .thrown msg =>
      -- uncaught: the try/finally was never entered, the lock stays held
      (s, [Effect.uncaughtException msg])
  | .ok sanitizedArxivId =>
    let req := [Effect.paperRequest sanitizedArxivId]
    let (s, effs) :=
      match fetchEnv with
      | .thrown _ =>
          (s, req ++ [Effect.toast .error "Could not summarize paper"])
      | .ok dataOpt =>
        match dataOpt with
        | some data =>
          if hasSummary data ∧ data.processing = some false then
            -- Case 1: store the record, push the paper URL, display it
            let s := { s with currentPaperData := some data }
            let pushEffs :=
              if !fileProto then [Effect.pushStateUrl sanitizedArxivId] else []
            let (s, de) := displayPaper data s
            (s, req ++ pushEffs ++ de)
          else if data.processing = some true then
            -- Case 2
            (s, req ++ [Effect.toast .info
              "The paper is being summarized. Please check back later."])
          else if jsTruthyO data.message ∧
              jsIncludes (data.message.getD "") "No data found" then
            -- Case 3 (the data.message branch): enqueue, then an
            -- unconditional success toast (the enqueue result is ignored)
            let (ee, _ok) := enqueuePaper enqEnv
            (s, req ++ ee ++ [Effect.toast .success "Paper has been queued for summarizing"])
          else
            -- Case 4
            (s, req ++ [Effect.toast .error "Could not summarize paper"])
        | none =>
          -- Case 3 (the !data branch)
          let (ee, _ok) := enqueuePaper enqEnv
          (s, req ++ ee ++ [Effect.toast .success "Paper has been queued for summarizing"])
    (setApiCallState false s, effs)

/-- `fetchPaper` (lines 626-667): acquire the lock (immediately before
the `try`), short-circuit on the file protocol with stored data, then
take the three response cases; the `catch` falls back to the search
view and the `finally` releases the lock. -/
def fetchPaper (fetchEnv : JsResult (Option PaperData))
    (searchEnv : JsResult SearchData) (fileProto : Bool)
    (arxivId : String) (s : AppState) : AppState × List Effect :=
  let s := setApiCallState true s
  let loading := [Effect.toast .info "Loading paper..."]
  let (s, effs) :=
    match fileProto, s.currentPaperData with
    | true, some stored =>
        let (s, de) := displayPaper stored s
        (s, loading ++ de)
    | _, _ =>
      let req := [Effect.paperRequest arxivId]
      match fetchEnv with
      | .thrown _ =>
          let (s, se) := showSearchView false searchEnv s
          (s, loading ++ req ++ se ++ [Effect.toast .error "Could not summarize paper"])
      | .ok dataOpt =>
        match dataOpt with
        | some data =>
          if hasSummary data ∧ data.processing = some false then
            let (s, de) := displayPaper data s
            (s, loading ++ req ++ de)
          else if data.processing = some true then
            let (s, se) := showSearchView false searchEnv s
            (s, loading ++ req ++ se ++ [Effect.toast .info
              "The paper is being summarized. Please check back later."])
          else
            let (s, se) := showSearchView false searchEnv s
            (s, loading ++ req ++ se ++ [Effect.toast .error
              "Paper not found or not yet summarized."])
        | none =>
          let (s, se) := showSearchView false searchEnv s
          (s, loading ++ req ++ se ++ [Effect.toast .error
            "Paper not found or not yet summarized."])
  (setApiCallState false s, effs)

/-! ## Upload pipeline (`uploadFile`, lines 883-1191) -/

/-- The selected file (`input.files[0]`); only its name is consulted by
the pipeline logic. -/
structure UFile where
  name : String
  deriving DecidableEq

/-- Environment of one `uploadFile` run: the selected file, the
nondeterministic inputs (`Date.now()`, `generateUUID()`,
`isFileProtocol()`), and the outcomes of the awaited steps: the parsed
payload the hasher sees for a native PDF, the conversion outcome for
DOCX/TXT (mammoth / `file.text()` / html2pdf may throw), the
`/paper/hash` probe (`response.ok` flag and body), the S3 PUT
(`response.ok` flag or a thrown transport error) and the enqueue
response. -/
structure UploadEnv where
  file : Option UFile
  now : String := "0"
  uuid : String := "u"
  fileProto : Bool := false
  pdfPayload : PdfPayload := PdfPayload.malformed
  convert : JsResult PdfPayload := JsResult.thrown "conversion failed"
  probe : JsResult (Bool × Option PaperData) := JsResult.ok (false, none)
  put : JsResult Bool := JsResult.thrown "network"
  enqueue : JsResult EnqueueResp := JsResult.ok {}
  deriving DecidableEq

/-- `checkPaperHashExists` (lines 81-112): POST `{hashId}` to
`/paper/hash`; a non-2xx response, a thrown error, a null body or a
body without a truthy `arxiv_id` are all a miss (`none`); never
throws. -/
def checkPaperHashExists (env : JsResult (Bool × Option PaperData))
    (hash : String) : List Effect × Option PaperData :=
  let req := [Effect.hashProbeRequest hash]
  let result : Option PaperData :=
    match env with
    | .thrown _ => none
    | .ok (respOk, body) =>
      if !respOk then none
      else
        match body with
        | some data => if jsTruthyO data.arxiv_id then some data else none
        | none => none
  (req, result)

/-- The dedup-hit block duplicated in the three supported branches of
`uploadFile` (lines 924-960, 991-1027, 1055-1091): close the modal,
toast, store the record, push the paper URL when possible, display the
record and return early. -/
def dedupHitBlock (hit : PaperData) (fileProto : Bool) (s : AppState) :
    AppState × List Effect :=
  let s := { s with currentPaperData := some hit }
  let pushEffs :=
    if !fileProto && jsTruthyO hit.sanitized_arxiv_id then
      [Effect.pushStateUrl (hit.sanitized_arxiv_id.getD "")]
    else []
  let (s, de) := displayPaper hit s
  (s, [Effect.toast .success "Existing summary found for uploaded file"] ++ pushEffs ++ de)

/-- Outcome of the per-extension stage of `uploadFile` before the S3
PUT: an early `return` (dedup hit or unsupported type), a thrown error
(conversion failure) headed for the `catch`, or fall-through to the
upload step. -/
inductive StageResult where
  | earlyReturn (s : AppState) (effs : List Effect)
  | thrownErr (s : AppState) (effs : List Effect) (msg : String)
  | proceed (s : AppState) (effs : List Effect)

/-- The extension dispatch of `uploadFile` (lines 915-1104): a PDF is
hashed directly; DOCX and TXT are converted first (differing only in
the conversion input, both via `convertHtmlToPdfBlob`) and the result
is hashed; in each case the dedup probe runs only under the source's
`if (pdfHash)` truthiness guard (lines 921, 988, 1052) — both `null`
(hash failure) and the empty string are falsy in JS, so those skip the
probe and proceed straight to the upload; a probe hit takes the
early-return block; any other extension aborts with an error toast. -/
def uploadStage (env : UploadEnv) (extension : String) (s : AppState) :
    StageResult :=
  if extension = "pdf" then
    let pdfHash := generatePdfHash env.pdfPayload
    if jsTruthyO pdfHash then
      let probeRes := checkPaperHashExists env.probe (pdfHash.getD "")
      match probeRes.2 with
      | some matchingPaper =>
          let hitRes := dedupHitBlock matchingPaper env.fileProto s
          .earlyReturn hitRes.1 (probeRes.1 ++ hitRes.2)
      | none => .proceed s probeRes.1
    else .proceed s []
  else if extension = "docx" ∨ extension = "txt" then
    match env.convert with
    | .thrown msg => .thrownErr s [] msg
    | .ok payload =>
      let pdfHash := generatePdfHash payload
      if jsTruthyO pdfHash then
        let probeRes := checkPaperHashExists env.probe (pdfHash.getD "")
        match probeRes.2 with
        | some matchingPaper =>
            let hitRes := dedupHitBlock matchingPaper env.fileProto s
            .earlyReturn hitRes.1 (probeRes.1 ++ hitRes.2)
        | none => .proceed s probeRes.1
      else .proceed s []
  else
    .earlyReturn s [Effect.toast .error
      "❌ Unsupported file type. Please upload PDF, DOCX, or TXT."]

/-- `uploadFile` (lines 883-1191).  With no file selected it toasts and
returns before the lock is touched.  Otherwise the lock is acquired,
the extension stage runs (see `uploadStage`), then the artifact is PUT
to the timestamp-prefixed S3 key; on `response.ok` an UploadRecord is
appended and persisted, the dummy record is enqueued (the enqueue
result is ignored — its internal catch never fires because
`enqueuePaper` never throws — and a success toast follows
unconditionally), and the uploads view is scheduled; a non-ok PUT
throws into the `catch`.  The `finally` resets the button, releases
the lock and clears the input on every path that entered the `try`. -/
def uploadFile (env : UploadEnv) (s : AppState) : AppState × List Effect :=
  match env.file with
  | none => (s, [Effect.toast .error "Please select a file"])
  | some file =>
    let s := setApiCallState true s
    let extension := jsExtension file.name
    let fileName := env.now ++ "_" ++ jsStripLastExt file.name ++ ".pdf"
    let uploadUrl := "https://file-upload-papergist.s3.amazonaws.com/" ++ fileName
    let (s, effs) :=
      match uploadStage env extension s with
      | .earlyReturn s effs => (s, effs)
      | .thrownErr s effs msg =>
          (s, effs ++ [Effect.toast .error ("❌ Upload error: " ++ msg)])
      | .proceed s effs =>
        let putEff := [Effect.putRequest uploadUrl]
        match env.put with
        | .thrown msg =>
            (s, effs ++ putEff ++ [Effect.toast .error ("❌ Upload error: " ++ msg)])
        | .ok respOk =>
          if respOk then
            let arxivId := "manual-upload-" ++ env.uuid
            let fileUrl := uploadUrl
            let uploadRecord : UploadRecord :=
              { arxiv_id := arxivId,
                sanitized_arxiv_id := arxivId,
                title := "Upload ID: " ++ arxivId,
                uploadDate := env.now,
                fileUrl := fileUrl,
                fileName := file.name }
            let s := { s with myUploads := s.myUploads ++ [uploadRecord] }
            let (ee, _ok) := enqueuePaper env.enqueue
            (s, effs ++ putEff
                ++ [Effect.persistUploads s.myUploads]
                ++ ee
                ++ [Effect.toast .success "Paper has been queued for summarization"]
                ++ [Effect.scheduleShowUploads])
          else
            -- throw new Error("Upload failed") caught by the catch block
            (s, effs ++ putEff ++ [Effect.toast .error "❌ Upload error: Upload failed"])
    (setApiCallState false s, effs)

/-! ## Event handlers (user-triggered entry points) -/

/-- The informational notice every handler raises while the lock is
held. -/
def busyToast : Effect :=
  Effect.toast .info "Please wait for the current operation to complete"

/-- `handleSearch` (lines 262-279): refuse under the lock; read and
trim the input into `currentQuery`; an empty query only toasts;
otherwise enter the search view (skipping its fetch), reset the page
and fetch. -/
def handleSearch (env : JsResult SearchData) (s : AppState) :
    AppState × List Effect :=
  if s.isApiCallInProgress then (s, [busyToast])
  else
    let s := { s with currentQuery := s.searchInputValue.trim }
    if !jsTruthy s.currentQuery then
      (s, [Effect.toast .error "Please enter a search query"])
    else
      let (s, e1) := showSearchView true env s
      let s := { s with currentPage := 0 }
      let (s, e2) := fetchResults env s
      (s, e1 ++ e2)

/-- `handleSortChange` (lines 282-295): refuse under the lock; store
the new sort key, reset the page, and fetch only in search view with a
query. -/
def handleSortChange (newSort : String) (env : JsResult SearchData)
    (s : AppState) : AppState × List Effect :=
  if s.isApiCallInProgress then (s, [busyToast])
  else
    let s := { s with currentSortBy := newSort, currentPage := 0 }
    if s.currentView = View.search ∧ jsTruthy s.currentQuery then
      fetchResults env s
    else (s, [])

/-- `handlePageChange` (lines 298-310): refuse under the lock;
`currentPage += delta` runs unconditionally, then the fetch is issued
only in search view. -/
def handlePageChange (delta : Int) (env : JsResult SearchData)
    (s : AppState) : AppState × List Effect :=
  if s.isApiCallInProgress then (s, [busyToast])
  else
    let s := { s with currentPage := s.currentPage + delta }
    if s.currentView = View.search then fetchResults env s
    else (s, [])

/-- The `searchTab` click listener (lines 196-202). -/
def searchTabClick (env : JsResult SearchData) (s : AppState) :
    AppState × List Effect :=
  if !s.isApiCallInProgress then showSearchView false env s
  else (s, [busyToast])

/-- The `uploadsTab` click listener (lines 204-210). -/
def uploadsTabClick (s : AppState) : AppState × List Effect :=
  if !s.isApiCallInProgress then showUploadsView s
  else (s, [busyToast])

/-- The `returnToSearch` button listener (lines 213-232): refuse under
the lock; otherwise return to the uploads view when `currentView` is
uploads, else to the search view, then strip the paper suffix from the
URL when not on the file protocol. -/
def returnToSearchClick (env : JsResult SearchData) (fileProto : Bool)
    (s : AppState) : AppState × List Effect :=
  if s.isApiCallInProgress then (s, [busyToast])
  else
    let (s, effs) :=
      if s.currentView = View.uploads then showUploadsView s
      else showSearchView false env s
    let pushEffs := if !fileProto then [Effect.pushStateUrl "base"] else []
    (s, effs ++ pushEffs)

/-- The `popstate` listener (lines 235-251): refuse under the lock;
otherwise fetch the paper encoded in the URL, or fall back to the
search view.  `paperIdInUrl` is the result of the `/paper/([^/]+)$`
match. -/
def popstateHandler (paperIdInUrl : Option String)
    (paperEnv : JsResult (Option PaperData)) (searchEnv : JsResult SearchData)
    (fileProto : Bool) (s : AppState) : AppState × List Effect :=
  if s.isApiCallInProgress then (s, [busyToast])
  else
    match paperIdInUrl with
    | some paperId => fetchPaper paperEnv searchEnv fileProto paperId s
    | none => showSearchView false searchEnv s

/-- The summarize-button listener attached in `createPaperCard` (lines
478-496): refuse under the lock before any state is touched; otherwise
run `processPaperSummary` on the card's paper data. -/
def summarizeButtonClick (paper : PaperData)
    (fetchEnv : JsResult (Option PaperData)) (enqEnv : JsResult EnqueueResp)
    (fileProto : Bool) (s : AppState) : AppState × List Effect :=
  if s.isApiCallInProgress then (s, [busyToast])
  else processPaperSummary fetchEnv enqEnv fileProto paper s

/-- The upload-card listener attached in `displayUploadsList` (lines
430-436): run `processPaperSummary` on the stored record (its fields
embedded in a `PaperData`), or refuse under the lock. -/
def uploadCardClick (record : PaperData)
    (fetchEnv : JsResult (Option PaperData)) (enqEnv : JsResult EnqueueResp)
    (fileProto : Bool) (s : AppState) : AppState × List Effect :=
  if !s.isApiCallInProgress then processPaperSummary fetchEnv enqEnv fileProto record s
  else (s, [busyToast])

/-- The `uploadButton` click listener (lines 1233-1239): open the file
dialog, or refuse under the lock. -/
def uploadButtonClick (s : AppState) : AppState × List Effect :=
  if !s.isApiCallInProgress then (s, [Effect.openFileDialog])
  else (s, [busyToast])

/-! ## PollLoop (`pollForSummary`, src/frontend/app.js lines 173-200) -/

namespace Frontend

/-- Body of one `/paper/{id}` poll response as read by
`pollForSummary`; absent fields are `none`.  An absent record is
answered by the backend with a body carrying a "No data found" message
(see the Case-3 test of src/unnamed/part_001 line 570), i.e. a body
whose `error`, `processing`, `summary` and `processing_error` fields
are all absent. -/
structure PollResponse where
  error : Option String := none
  processing : Option Bool := none
  summary : Option String := none
  processing_error : Option String := none
  title : Option String := none
  authors : List String := []
  message : Option String := none
  deriving DecidableEq

/-- What one execution of `pollForSummary` does after its response is
observed. -/
inductive PollOutcome where
  | showError (msg : String)
  | schedulePoll (delayMs : Nat)
  | displaySummary
  | silent
  deriving DecidableEq

/-- `pollForSummary` (lines 173-200): a thrown fetch is caught with an
error modal; otherwise a truthy `error` field shows the error, a truthy
`processing` flag schedules one re-poll after 5000 ms, a truthy
`summary` displays it, a truthy `processing_error` shows it — and a
response matching none of these (e.g. an absent record answered with a
"No data found" body) falls through all branches and does nothing. -/
def pollForSummary (env : JsResult PollResponse) : PollOutcome :=
  match env with
  | .thrown _ => .showError "Failed to fetch summary. Please try again."
  | .ok data =>
    if jsTruthyO data.error then .showError (data.error.getD "")
    else if jsTruthyB data.processing then .schedulePoll 5000
    else if jsTruthyO data.summary then .displaySummary
    else if jsTruthyO data.processing_error then .showError (data.processing_error.getD "")
    else .silent

/-- Whether an outcome is a user-visible failure notice. -/
def PollOutcome.isFailureNotice : PollOutcome → Bool
  | .showError _ => true
  | _ => false

end Frontend

/-! ## Discriminators used to state the claims -/

/-- Whether an effect is a request to the artifact-upload
(object-storage PUT) endpoint. -/
def Effect.isPutRequest : Effect → Bool
  | .putRequest _ => true
  | _ => false

/-- Whether an effect is a request to the task-submission (enqueue)
endpoint. -/
def Effect.isEnqueueRequest : Effect → Bool
  | .enqueueRequest => true
  | _ => false

/-- Whether an effect is a request to the search endpoint. -/
def Effect.isSearchRequest : Effect → Bool
  | .searchRequest _ _ _ => true
  | _ => false

/-- Whether an effect is an error-severity toast. -/
def Effect.isErrorToast : Effect → Bool
  | .toast .error _ => true
  | _ => false

/-- Whether an enqueue outcome counts as a failed submission: a
transport error or an error-bearing response body. -/
def enqueueFails (env : JsResult EnqueueResp) : Bool :=
  match env with
  | .thrown _ => true
  | .ok data => jsTruthyO data.error

/-- The hash the upload pipeline computes for the given environment
and extension, if it reaches the probe: the direct hash for a PDF, the
hash of the converted blob for DOCX/TXT, nothing otherwise. -/
def pipelineHash (env : UploadEnv) (extension : String) : Option String :=
  if extension = "pdf" then generatePdfHash env.pdfPayload
  else if extension = "docx" ∨ extension = "txt" then
    match env.convert with
    | .thrown _ => none
    | .ok payload => generatePdfHash payload
  else none

/-! ## Concrete fixtures for counterexamples and witnesses -/

/-- The module's initial state (lines 8-16 of the source). -/
def initialState : AppState := {}

/-- A single-page document whose first-page text is "Hello World". -/
def helloPage : PdfPage := { items := [{ str := "Hello " }, { str := "World" }] }

/-- The document holding `helloPage`. -/
def helloDoc : PdfDoc := { pages := [helloPage] }

/-- A document whose single text run is the same "Hello World" text in
one piece (same concatenation as `helloDoc`, different run structure). -/
def helloDocJoined : PdfDoc := { pages := [{ items := [{ str := "Hello World" }] }] }

/-- Exactly 48 'a' characters. -/
def fortyEightAs : String := "aaaaaaaaaaaaaaaaaaaaaaaaaaaaaaaaaaaaaaaaaaaaaaaa"

/-- Document A for the collision counterexample: first-page text is 48
'a's. -/
def collisionDocA : PdfDoc := { pages := [{ items := [{ str := fortyEightAs }] }] }

/-- Document B for the collision counterexample: first-page text is a
space followed by 48 'a's — after whitespace stripping both documents'
texts are identical, yet the leading space pushes the 48th 'a' out of
the pre-strip 48-character window. -/
def collisionDocB : PdfDoc := { pages := [{ items := [{ str := " " ++ fortyEightAs }] }] }

/-- A paper record lacking both `sanitized_arxiv_id` and `arxiv_id`
(`{}` in JS): a search result without an id produces exactly this shape
in `processPaperSummary`. -/
def noIdPaper : PaperData := {}

/-- A well-formed paper reference as found in search results. -/
def mlPaper : PaperData :=
  { arxiv_id := some "2101.00001",
    sanitized_arxiv_id := some "2101.00001",
    title := some "A Paper",
    authors := ["A. Author"] }

/-- A dedup-probe hit: a backend record carrying an identifier and a
ready summary. -/
def hitPaper : PaperData :=
  { arxiv_id := some "1712.01234",
    sanitized_arxiv_id := some "1712.01234",
    title := some "Existing Paper",
    authors := ["B. Author"],
    summary := some "An existing summary.",
    processing := some false }

/-- State in which a first search for "machine learning" is about to
run: query stored, page 0. -/
def c4State : AppState :=
  { currentQuery := "machine learning", searchInputValue := "machine learning" }

/-- A successful search response with a further page available. -/
def c4DataTrue : SearchData := { papers := [mlPaper], has_next_page := true }

/-- A successful search response with no further page. -/
def c4DataFalse : SearchData := { papers := [mlPaper], has_next_page := false }

/-- A state in the uploads view with no operation in flight, sitting at
page 0. -/
def uploadsViewState : AppState :=
  { currentView := View.uploads, currentQuery := "" }

/-- A state whose lock is held. -/
def lockedState : AppState :=
  { isApiCallInProgress := true, currentQuery := "quantum",
    searchInputValue := "quantum" }

/-- An enqueue response carrying an error field: a failed submission. -/
def enqFailEnv : JsResult EnqueueResp := JsResult.ok { error := some "boom" }

/-- Upload environment for a PDF whose fingerprint is already known to
the backend: the probe answers with `hitPaper`. -/
def pdfHitEnv : UploadEnv :=
  { file := some { name := "paper.pdf" },
    pdfPayload := PdfPayload.valid helloDoc,
    probe := JsResult.ok (true, some hitPaper),
    put := JsResult.ok true,
    enqueue := JsResult.ok {} }

/-- Upload environment for a PDF whose hashing fails (probe skipped)
and whose PUT succeeds while the enqueue fails. -/
def pdfEnqFailEnv : UploadEnv :=
  { file := some { name := "paper.pdf" },
    pdfPayload := PdfPayload.malformed,
    put := JsResult.ok true,
    enqueue := enqFailEnv }

/-- The backend's body for an absent record: a "No data found" message
and nothing else. -/
def noDataFoundResponse : Frontend.PollResponse := { message := some "No data found" }

/-- A poll response whose processing flag is set. -/
def processingResponse : Frontend.PollResponse := { processing := some true }

/-! ## Helper lemmas -/

/-- Releasing the lock really stores `false` in the flag: the UI
re-enabling that follows never touches it. -/
theorem setApiCallState_false_isApiCallInProgress (s : AppState) :
    (setApiCallState false s).isApiCallInProgress = false := by
  simp [setApiCallState, enableAllUIInteractions, windowPrevPageButton,
    windowNextPageButton]

/-- `setApiCallState` only touches the lock flag and the button
disabled flags; the orchestration fields pass through unchanged. -/
theorem setApiCallState_preserves (b : Bool) (s : AppState) :
    (setApiCallState b s).currentPage = s.currentPage
    ∧ (setApiCallState b s).currentQuery = s.currentQuery
    ∧ (setApiCallState b s).currentView = s.currentView
    ∧ (setApiCallState b s).currentPaperData = s.currentPaperData
    ∧ (setApiCallState b s).myUploads = s.myUploads := by
  cases b <;>
    simp [setApiCallState, disableAllUIInteractions, enableAllUIInteractions,
      windowPrevPageButton, windowNextPageButton]

/-- The probe always issues exactly its one POST, whatever the
outcome. -/
theorem checkPaperHashExists_fst (env : JsResult (Bool × Option PaperData))
    (hash : String) :
    (checkPaperHashExists env hash).1 = [Effect.hashProbeRequest hash] := rfl

/-- The pre-`try` id computation of `processPaperSummary` cannot throw
when the record carries a truthy `sanitized_arxiv_id` or any
`arxiv_id`. -/
theorem sanitizedIdOf_ok_of (p : PaperData)
    (h : jsTruthyO p.sanitized_arxiv_id = true ∨ p.arxiv_id.isSome = true) :
    ∃ v, sanitizedIdOf p = JsResult.ok v := by
  by_cases hq : jsTruthyO p.sanitized_arxiv_id = true
  · exact ⟨p.sanitized_arxiv_id.getD "", by simp [sanitizedIdOf, hq]⟩
  · rcases h with h | h
    · exact absurd h hq
    · rcases Option.isSome_iff_exists.mp h with ⟨a, ha⟩
      exact ⟨sanitizeArxivId a, by simp [sanitizedIdOf, hq, ha]⟩

/-! ## Claim C5 -/

/-- C5 (confirmed): for every well-formed document payload — a parsed
document with a first page — the ContentHasher's output equals the
reference definition (first-page text runs concatenated, first 48
characters taken, whitespace removed from those 48 characters, result
lowercased); for an unsupported or malformed payload (PDF.js missing,
parse failure, or a document whose first page does not exist) it
returns the failure signal `none`. -/
theorem contentHasher_matches_reference :
    (∀ (doc : PdfDoc) (page : PdfPage) (rest : List PdfPage),
        doc.pages = page :: rest →
        generatePdfHash (PdfPayload.valid doc) = some (referenceFingerprint page))
    ∧ generatePdfHash PdfPayload.malformed = none
    ∧ generatePdfHash PdfPayload.libMissing = none
    ∧ (∀ doc : PdfDoc, doc.pages = [] →
        generatePdfHash (PdfPayload.valid doc) = none) := by
  refine ⟨?_, rfl, rfl, ?_⟩
  · intro doc page rest h
    simp [generatePdfHash, referenceFingerprint, h]
  · intro doc h
    simp [generatePdfHash, h]

/-- Witness for C5: the hasher agrees with the reference definition on
a concrete one-page document. -/
theorem contentHasher_matches_reference_witness :
    generatePdfHash (PdfPayload.valid helloDoc)
      = some (referenceFingerprint helloPage) :=
  contentHasher_matches_reference.1 helloDoc helloPage [] rfl

/-! ## Claim C6 -/

/-- C6 counterexample: two documents whose first-page texts are
identical after whitespace stripping (hence agree on the first 48
post-stripping characters) receive different fingerprints, because the
source slices the first 48 characters before stripping whitespace: a
leading space pushes the 48th character out of the window. -/
theorem strippedPrefix_collision_counterexample :
    (jsSlice (jsStripWS (firstPageText collisionDocA)) 48
        = jsSlice (jsStripWS (firstPageText collisionDocB)) 48)
    ∧ generatePdfHash (PdfPayload.valid collisionDocA)
        ≠ generatePdfHash (PdfPayload.valid collisionDocB) := by
  constructor
  · rfl
  · decide

/-- C6 (corrected): payloads whose first-page text concatenations agree
on their first 48 raw (pre-stripping) characters receive the same
fingerprint. -/
theorem hash_agrees_on_raw_prefix
    (dA dB : PdfDoc) (pA pB : PdfPage) (rA rB : List PdfPage)
    (hA : dA.pages = pA :: rA) (hB : dB.pages = pB :: rB)
    (h : jsSlice (firstPageText dA) 48 = jsSlice (firstPageText dB) 48) :
    generatePdfHash (PdfPayload.valid dA)
      = generatePdfHash (PdfPayload.valid dB) := by
  simp only [firstPageText, hA, hB] at h
  simp [generatePdfHash, hA, hB, h]

/-- Witness for C6's amended statement: same first-page text split into
different runs, same fingerprint. -/
theorem hash_agrees_on_raw_prefix_witness :
    generatePdfHash (PdfPayload.valid helloDoc)
      = generatePdfHash (PdfPayload.valid helloDocJoined) :=
  hash_agrees_on_raw_prefix helloDoc helloDocJoined helloPage
    { items := [{ str := "Hello World" }] } [] [] rfl rfl (by decide)

/-! ## Claim C7 -/

/-- C7 counterexample: the backend answers an absent record with a
"No data found" body (no `error`, `processing`, `summary` or
`processing_error` field); `pollForSummary` falls through every branch
and terminates silently — no failure notice is shown, contradicting
the claim's third case. -/
theorem pollLoop_absent_record_counterexample :
    Frontend.pollForSummary (JsResult.ok noDataFoundResponse)
        = Frontend.PollOutcome.silent
    ∧ (Frontend.pollForSummary (JsResult.ok noDataFoundResponse)).isFailureNotice
        = false := by
  decide

/-- C7 (corrected): the outcome of one poll response, in the source's
branch order: an error field (or a thrown fetch) gives a failure
notice; otherwise a true processing flag schedules exactly one re-poll
after 5000 ms; otherwise a non-empty summary is terminal success;
otherwise a processing-error field gives a failure notice; otherwise —
in particular for an absent record answered with a "No data found"
body — the loop terminates silently with no notice. -/
theorem pollForSummary_cases (r : Frontend.PollResponse) :
    (jsTruthyO r.error = true →
      Frontend.pollForSummary (JsResult.ok r)
        = Frontend.PollOutcome.showError (r.error.getD ""))
    ∧ (jsTruthyO r.error = false → jsTruthyB r.processing = true →
      Frontend.pollForSummary (JsResult.ok r)
        = Frontend.PollOutcome.schedulePoll 5000)
    ∧ (jsTruthyO r.error = false → jsTruthyB r.processing = false →
      jsTruthyO r.summary = true →
      Frontend.pollForSummary (JsResult.ok r)
        = Frontend.PollOutcome.displaySummary)
    ∧ (jsTruthyO r.error = false → jsTruthyB r.processing = false →
      jsTruthyO r.summary = false → jsTruthyO r.processing_error = true →
      Frontend.pollForSummary (JsResult.ok r)
        = Frontend.PollOutcome.showError (r.processing_error.getD ""))
    ∧ (jsTruthyO r.error = false → jsTruthyB r.processing = false →
      jsTruthyO r.summary = false → jsTruthyO r.processing_error = false →
      Frontend.pollForSummary (JsResult.ok r) = Frontend.PollOutcome.silent)
    ∧ (∀ msg, Frontend.pollForSummary (JsResult.thrown msg)
        = Frontend.PollOutcome.showError
            "Failed to fetch summary. Please try again.") := by
  refine ⟨?_, ?_, ?_, ?_, ?_, ?_⟩ <;> intros <;>
    simp [Frontend.pollForSummary, *]

/-- Witness for C7's amended statement: a processing response schedules
exactly one re-poll after the fixed 5000 ms delay. -/
theorem pollForSummary_cases_witness :
    Frontend.pollForSummary (JsResult.ok processingResponse)
      = Frontend.PollOutcome.schedulePoll 5000 :=
  (pollForSummary_cases processingResponse).2.1 (by decide) (by decide)

/-! ## Claim C9 -/

/-- C9 counterexample: a page increment triggered in the uploads view
(no operation in flight) changes the current page index from 0 to 1 —
the handler runs `currentPage += delta` before checking the view, so
the attempt is not the no-op the claim demands. -/
theorem pageChange_outside_search_counterexample :
    (handlePageChange 1 (JsResult.ok {}) uploadsViewState).1.currentPage = 1
    ∧ uploadsViewState.currentPage = 0 := by
  decide

/-- C9 (corrected): a page increment or decrement triggered while the
active view is not Search and no operation is in flight issues no
search request and produces no effects at all, and leaves every piece
of orchestration state unchanged except the current page index, which
is still moved by the delta. -/
theorem pageChange_outside_search_behavior
    (delta : Int) (env : JsResult SearchData) (s : AppState)
    (hLock : s.isApiCallInProgress = false)
    (hView : s.currentView ≠ View.search) :
    handlePageChange delta env s
      = ({ s with currentPage := s.currentPage + delta }, []) := by
  simp [handlePageChange, hLock, hView]

/-- Witness for C9's amended statement at a concrete uploads-view
state. -/
theorem pageChange_outside_search_behavior_witness :
    handlePageChange 2 (JsResult.ok {}) uploadsViewState
      = ({ uploadsViewState with currentPage := 2 }, []) :=
  pageChange_outside_search_behavior 2 (JsResult.ok {}) uploadsViewState
    rfl (by decide)

/-! ## Claim C10 -/

/-- C10 (confirmed): every entry into the MyUploads view
(`showUploadsView`) clears the stored query and empties the search
input, and a subsequent return to the Search view leaves the
pagination controls hidden and issues no search request — the fetch in
`showSearchView` is guarded by a truthy query. -/
theorem uploadsView_clears_query (s : AppState) (env : JsResult SearchData) :
    ((showUploadsView s).1.currentQuery = "")
    ∧ ((showUploadsView s).1.searchInputValue = "")
    ∧ ((showSearchView false env (showUploadsView s).1).1.paginationVisible = false)
    ∧ ((showSearchView false env (showUploadsView s).1).2.all
        (fun e => !e.isSearchRequest) = true) := by
  refine ⟨rfl, rfl, ?_, ?_⟩ <;>
    simp [showUploadsView, showSearchView, show_pagination, jsTruthy]

/-! ## Claim C4 -/

/-- C4: evaluation of the embedded code at the failing input.  A first
search for "machine learning" at page 0 completes successfully; the
resulting state is interactive (`isApiCallInProgress` is false) with
`currentPage = 0`, yet `prevPageButton` ends up enabled
(`prevPageDisabled = false`) because `enableAllUIInteractions`
re-enables every button and its page-dependent re-disabling is dead
code behind the undefined `window.prevPageButton`.  Likewise a
response with `has_next_page: false` leaves `nextPageButton` enabled.
The claim demands `prevPageDisabled = true` in the first state and
`nextPageDisabled = true` in the second. -/
theorem pagination_disabled_rule_eval :
    ((fetchResults (JsResult.ok c4DataTrue) c4State).1.isApiCallInProgress = false
      ∧ (fetchResults (JsResult.ok c4DataTrue) c4State).1.currentPage = 0
      ∧ (fetchResults (JsResult.ok c4DataTrue) c4State).1.prevPageDisabled = false)
    ∧ ((fetchResults (JsResult.ok c4DataFalse) c4State).1.isApiCallInProgress = false
      ∧ (fetchResults (JsResult.ok c4DataFalse) c4State).1.hasNextPage = false
      ∧ (fetchResults (JsResult.ok c4DataFalse) c4State).1.nextPageDisabled = false) := by
  decide

/-! ## Claim C3 -/

/-- C3 (confirmed): while the OperationLock is held, every
user-triggered entry point — query submission, sort change, page
change, both navigation tabs, the return button, browser back/forward
(popstate), summarize buttons, upload cards and the upload button — is
refused with exactly the informational "operation in progress" notice,
leaves the orchestration state unchanged, and emits no request or
other effect (nothing is queued). -/
theorem lock_refuses_all_entry_points
    (s : AppState) (env : JsResult SearchData) (newSort : String) (delta : Int)
    (fileProto : Bool) (paperIdInUrl : Option String)
    (paperEnv : JsResult (Option PaperData)) (enqEnv : JsResult EnqueueResp)
    (paper : PaperData)
    (hLock : s.isApiCallInProgress = true) :
    handleSearch env s = (s, [busyToast])
    ∧ handleSortChange newSort env s = (s, [busyToast])
    ∧ handlePageChange delta env s = (s, [busyToast])
    ∧ searchTabClick env s = (s, [busyToast])
    ∧ uploadsTabClick s = (s, [busyToast])
    ∧ returnToSearchClick env fileProto s = (s, [busyToast])
    ∧ popstateHandler paperIdInUrl paperEnv env fileProto s = (s, [busyToast])
    ∧ summarizeButtonClick paper paperEnv enqEnv fileProto s = (s, [busyToast])
    ∧ uploadCardClick paper paperEnv enqEnv fileProto s = (s, [busyToast])
    ∧ uploadButtonClick s = (s, [busyToast]) := by
  refine ⟨?_, ?_, ?_, ?_, ?_, ?_, ?_, ?_, ?_, ?_⟩ <;>
    simp [handleSearch, handleSortChange, handlePageChange, searchTabClick,
      uploadsTabClick, returnToSearchClick, popstateHandler,
      summarizeButtonClick, uploadCardClick, uploadButtonClick, hLock]

/-- Witness for C3 at a concrete locked state. -/
theorem lock_refuses_all_entry_points_witness :
    handleSearch (JsResult.ok {}) lockedState = (lockedState, [busyToast])
    ∧ uploadsTabClick lockedState = (lockedState, [busyToast])
    ∧ popstateHandler (some "2101.00001") (JsResult.ok none) (JsResult.ok {})
        false lockedState = (lockedState, [busyToast]) := by
  have h := lock_refuses_all_entry_points lockedState (JsResult.ok {}) "relevance"
    1 false (some "2101.00001") (JsResult.ok none) (JsResult.ok {}) mlPaper rfl
  exact ⟨h.1, h.2.2.2.2.1, h.2.2.2.2.2.2.1⟩

/-! ## Claim C1 -/

/-- C1: evaluation at the failing input, together with the release
guarantee on the remaining paths.  `processPaperSummary` invoked with a
record that has neither `sanitized_arxiv_id` nor `arxiv_id` (a shape a
search result without an id produces) throws in the id computation
that sits between `setApiCallState(true)` and the `try`, so the
`finally` never runs: the operation exits with the lock still held,
contradicting the claim.  Every other exit path of the four
orchestrated operations — search fetch, paper fetch, file upload (once
a file is selected), and paper-summary processing whenever the record
carries an id — releases the lock. -/
theorem operationLock_release_eval :
    ((processPaperSummary (JsResult.ok none) (JsResult.ok {}) false noIdPaper
        initialState).1.isApiCallInProgress = true
      ∧ (processPaperSummary (JsResult.ok none) (JsResult.ok {}) false noIdPaper
          initialState).2
        = [Effect.uncaughtException
            "TypeError: cannot read properties of undefined (reading replace)"])
    ∧ (∀ (env : JsResult SearchData) (s : AppState),
        (fetchResults env s).1.isApiCallInProgress = false)
    ∧ (∀ (fe : JsResult (Option PaperData)) (se : JsResult SearchData)
        (fp : Bool) (pid : String) (s : AppState),
        (fetchPaper fe se fp pid s).1.isApiCallInProgress = false)
    ∧ (∀ (env : UploadEnv) (s : AppState) (f : UFile), env.file = some f →
        (uploadFile env s).1.isApiCallInProgress = false)
    ∧ (∀ (fe : JsResult (Option PaperData)) (ee : JsResult EnqueueResp)
        (fp : Bool) (p : PaperData) (s : AppState),
        jsTruthyO p.sanitized_arxiv_id = true ∨ p.arxiv_id.isSome = true →
        (processPaperSummary fe ee fp p s).1.isApiCallInProgress = false) := by
  refine ⟨by decide, ?_, ?_, ?_, ?_⟩
  · intro env s
    exact setApiCallState_false_isApiCallInProgress _
  · intro fe se fp pid s
    exact setApiCallState_false_isApiCallInProgress _
  · intro env s f hfile
    simp only [uploadFile, hfile]
    exact setApiCallState_false_isApiCallInProgress _
  · intro fe ee fp p s hid
    obtain ⟨v, hv⟩ := sanitizedIdOf_ok_of p hid
    simp only [processPaperSummary, hv]
    exact setApiCallState_false_isApiCallInProgress _

/-- Witness for C1's release conjuncts at concrete inputs. -/
theorem operationLock_release_eval_witness :
    (uploadFile pdfEnqFailEnv initialState).1.isApiCallInProgress = false
    ∧ (processPaperSummary (JsResult.ok none) (JsResult.ok {}) false mlPaper
        initialState).1.isApiCallInProgress = false := by
  refine ⟨?_, ?_⟩
  · exact operationLock_release_eval.2.2.2.1 pdfEnqFailEnv initialState
      { name := "paper.pdf" } rfl
  · exact operationLock_release_eval.2.2.2.2 (JsResult.ok none) (JsResult.ok {})
      false mlPaper initialState (Or.inl (by decide))

/-! ## Claim C2 -/

/-- For a supported extension whose pipeline hash succeeds with a
truthy (non-empty) fingerprint — the only case in which the source's
`if (pdfHash)` guard lets the probe run — and whose probe answers with
a hit, the per-extension stage returns early with the dedup-hit
block's state and effects. -/
theorem uploadStage_hit (env : UploadEnv) (extension : String) (s : AppState)
    (h : String) (hit : PaperData)
    (hsup : extension = "pdf" ∨ extension = "docx" ∨ extension = "txt")
    (hhash : pipelineHash env extension = some h)
    (htr : h ≠ "")
    (hprobe : (checkPaperHashExists env.probe h).2 = some hit) :
    uploadStage env extension s
      = StageResult.earlyReturn (dedupHitBlock hit env.fileProto s).1
          ([Effect.hashProbeRequest h] ++ (dedupHitBlock hit env.fileProto s).2) := by
  rcases hsup with h1 | h1 | h1 <;> subst h1
  · simp [pipelineHash] at hhash
    simp [uploadStage, hhash, jsTruthyO, htr, hprobe, checkPaperHashExists_fst]
  · simp only [pipelineHash] at hhash
    rcases hc : env.convert with payload | m
    · rw [hc] at hhash
      simp at hhash
      simp [uploadStage, hc, hhash, jsTruthyO, htr, hprobe, checkPaperHashExists_fst]
    · rw [hc] at hhash
      simp at hhash
  · simp only [pipelineHash] at hhash
    rcases hc : env.convert with payload | m
    · rw [hc] at hhash
      simp at hhash
      simp [uploadStage, hc, hhash, jsTruthyO, htr, hprobe, checkPaperHashExists_fst]
    · rw [hc] at hhash
      simp at hhash

/-- C2 (confirmed): for every upload whose dedup probe returns a hit
(a record with an identifier), the pipeline performs zero requests to
the artifact-upload (PUT) endpoint and zero requests to the
task-submission (enqueue) endpoint, and the existing record is
displayed and stored as the current paper instead.  The probe runs —
and can therefore return a hit — exactly when the computed fingerprint
is truthy (`if (pdfHash)` at lines 921, 988, 1052: both a `null` hash
failure and an empty-string fingerprint skip the probe and proceed to
the upload), so that is the hypothesis here. -/
theorem dedupHit_skips_upload (env : UploadEnv) (s : AppState) (f : UFile)
    (h : String) (hit : PaperData)
    (hfile : env.file = some f)
    (hsup : jsExtension f.name = "pdf" ∨ jsExtension f.name = "docx"
      ∨ jsExtension f.name = "txt")
    (hhash : pipelineHash env (jsExtension f.name) = some h)
    (htr : h ≠ "")
    (hprobe : (checkPaperHashExists env.probe h).2 = some hit) :
    ((uploadFile env s).2.all
        (fun e => !e.isPutRequest && !e.isEnqueueRequest) = true)
    ∧ Effect.renderPaper hit ∈ (uploadFile env s).2
    ∧ (uploadFile env s).1.currentPaperData = some hit := by
  have hstage := uploadStage_hit env (jsExtension f.name)
    (setApiCallState true s) h hit hsup hhash htr hprobe
  refine ⟨?_, ?_, ?_⟩
  · simp only [uploadFile, hfile, hstage]
    by_cases hc : (!env.fileProto && jsTruthyO hit.sanitized_arxiv_id) = true <;>
      simp [dedupHitBlock, displayPaper, hc, Effect.isPutRequest,
        Effect.isEnqueueRequest]
  · simp only [uploadFile, hfile, hstage]
    simp [dedupHitBlock, displayPaper]
  · simp only [uploadFile, hfile, hstage]
    rw [(setApiCallState_preserves false _).2.2.2.1]
    simp [dedupHitBlock, displayPaper, showPaperView]

/-- Witness for C2: uploading a PDF whose fingerprint the backend
already knows displays the stored record and issues neither a PUT nor
an enqueue. -/
theorem dedupHit_skips_upload_witness :
    ((uploadFile pdfHitEnv initialState).2.all
        (fun e => !e.isPutRequest && !e.isEnqueueRequest) = true)
    ∧ Effect.renderPaper hitPaper ∈ (uploadFile pdfHitEnv initialState).2 := by
  have h := dedupHit_skips_upload pdfHitEnv initialState { name := "paper.pdf" }
    (generatePdfHash (PdfPayload.valid helloDoc)).get! hitPaper rfl
    (Or.inl (by decide)) (by decide) (by decide) (by decide)
  exact ⟨h.1, h.2.1⟩

/-! ## Claim C8 -/

/-- C8 counterexample: a submission whose response body carries an
error field makes `enqueuePaper` return failure, yet the calling
`processPaperSummary` shows the success notice "Paper has been queued
for summarizing" and no error notice at all — the failure is surfaced
zero times and the outcome is reported as success, contradicting
"surfaced exactly once" and "never reported as success". -/
theorem enqueue_failure_reported_as_success :
    (enqueuePaper enqFailEnv).2 = false
    ∧ Effect.toast ToastKind.success "Paper has been queued for summarizing"
        ∈ (processPaperSummary (JsResult.ok none) enqFailEnv false mlPaper
            initialState).2
    ∧ (processPaperSummary (JsResult.ok none) enqFailEnv false mlPaper
        initialState).2.all (fun e => !e.isErrorToast) = true := by
  decide

/-- C8 (corrected): a failed task submission (transport error or
error-bearing body) makes the submitter return failure rather than
raising, with exactly one request issued (never retried); but the
failure is not surfaced to the user as a notice — both orchestrating
callers (`processPaperSummary` on an unknown record, and the
`uploadFile` success path) show their queued-for-summarization success
notice regardless of the submitter's result, and emit no error
notice for it. -/
theorem enqueue_failure_behavior (e : JsResult EnqueueResp)
    (he : enqueueFails e = true) :
    ((enqueuePaper e).2 = false ∧ (enqueuePaper e).1 = [Effect.enqueueRequest])
    ∧ (∀ (p : PaperData) (s : AppState) (fp : Bool),
        jsTruthyO p.sanitized_arxiv_id = true →
        Effect.toast ToastKind.success "Paper has been queued for summarizing"
            ∈ (processPaperSummary (JsResult.ok none) e fp p s).2
        ∧ (processPaperSummary (JsResult.ok none) e fp p s).2.all
            (fun x => !x.isErrorToast) = true)
    ∧ (∀ (env : UploadEnv) (s : AppState) (f : UFile),
        env.file = some f → env.enqueue = e → env.put = JsResult.ok true →
        jsExtension f.name = "pdf" → generatePdfHash env.pdfPayload = none →
        Effect.toast ToastKind.success "Paper has been queued for summarization"
            ∈ (uploadFile env s).2
        ∧ (uploadFile env s).2.all (fun x => !x.isErrorToast) = true) := by
  refine ⟨⟨?_, rfl⟩, ?_, ?_⟩
  · rcases e with d | m
    · simp only [enqueueFails] at he
      simp [enqueuePaper, he]
    · rfl
  · intro p s fp hp
    obtain ⟨v, hv⟩ := sanitizedIdOf_ok_of p (Or.inl hp)
    simp only [processPaperSummary, hv]
    constructor
    · simp [enqueuePaper]
    · simp [enqueuePaper, Effect.isErrorToast]
  · intro env s f hfile henq hput hext hhash
    have hstage : uploadStage env (jsExtension f.name) (setApiCallState true s)
        = StageResult.proceed (setApiCallState true s) [] := by
      rw [hext]
      simp [uploadStage, hhash, jsTruthyO]
    simp only [uploadFile, hfile, hstage, hput]
    constructor
    · simp [enqueuePaper]
    · simp [enqueuePaper, Effect.isErrorToast]

/-- Witness for C8's amended statement: a transport-failure submission
returns failure with its single request, and a PDF upload whose
enqueue fails still shows the queued success notice. -/
theorem enqueue_failure_behavior_witness :
    (enqueuePaper enqFailEnv).1 = [Effect.enqueueRequest]
    ∧ Effect.toast ToastKind.success "Paper has been queued for summarization"
        ∈ (uploadFile pdfEnqFailEnv initialState).2 := by
  have h := enqueue_failure_behavior enqFailEnv (by decide)
  exact ⟨h.1.2, (h.2.2 pdfEnqFailEnv initialState { name := "paper.pdf" }
    rfl rfl rfl (by decide) rfl).1⟩

end Papergist
